import Mathlib

set_option maxRecDepth 8000

/-!
Verification of the verdex soil-forecast pipeline.

This file is a shallow embedding of the data-flow core of `src/app.py`
(a Flask application serving LSTM soil-parameter forecasts):

* the four-parameter data model (`Param`, `Row`, the column/display-name
  mappings),
* the per-parameter min-max normalization state (`Scaler`, `normalize_data`,
  `denormalize_data`, mirroring scikit-learn's `MinMaxScaler` with feature
  range (0, 1), including its divide-by-zero guard that replaces a zero
  data range by 1),
* fixed-window sequence construction (`create_sequences`),
* the `/api/predict` orchestration loop (`predictParam`, `predict`) with its
  per-parameter error isolation, statistics and presentation rounding,
* model loading (`load_pretrained_models`) and the health check,
* the `/api/historical` endpoint (`get_historical`) over the Supabase-backed
  row store (`fetch_sensor_data`).

Modelling conventions: Python floats are embedded as `ℚ` (exact arithmetic;
`float.__round__` is embedded as round-half-up on `ℚ`, which agrees with
Python's banker's rounding except at exact half-multiples of the rounding
unit, none of which are exercised below). `np.sqrt` (used only for the `std`
statistic) is an opaque numeric primitive and is threaded through `predict`
as an explicit function argument. Loaded Keras models are opaque functions
from an input window to either a forecast vector or a raised exception,
exactly as the spec treats them. The Supabase table `raw_sensor_readings` is
an external ascending-by-datetime row store; a query
`order('datetime', desc=False).limit(n)` therefore returns the first `n`
rows of that store (SQL `ORDER BY datetime ASC LIMIT n`).
-/

namespace Verdex

-- The Batteries rational primitives are `@[irreducible]` by default, which
-- blocks `decide`-based evaluation of the concrete runs below; restore the
-- ordinary reducibility of their defining equations for this development.
attribute [local semireducible] Rat.mul Rat.inv Rat.add Rat.sub

/-- The fixed enumeration of forecast parameters (keys of `MODEL_MAPPING`,
`COLUMN_MAPPING` and `PARAM_NAMES` in `src/app.py`, in dict insertion
order). -/
inductive Param
  | nitrogen
  | phosphorus
  | moisture
  | pH
deriving DecidableEq, Repr

/-- The iteration order of the parameter dictionaries in `src/app.py`. -/
def Param.all : List Param := [.nitrogen, .phosphorus, .moisture, .pH]

/-- The dict key / string name of a parameter as used in messages. -/
def Param.key : Param → String
  | .nitrogen => "nitrogen"
  | .phosphorus => "phosphorus"
  | .moisture => "moisture"
  | .pH => "pH"

/-- `PARAM_NAMES` (src/app.py lines 95-100). -/
def PARAM_NAMES : Param → String
  | .nitrogen => "Nitrogen (N)"
  | .phosphorus => "Phosphorus (P)"
  | .moisture => "Soil Moisture (K)"
  | .pH => "Soil pH"

/-- One row of the `raw_sensor_readings` table, restricted to the four
numeric columns the pipeline reads (`id`, `datetime`, `temperature` and
`humidity` are fetched but never used by the verified code paths; rows are
kept in ascending `datetime` order by the enclosing list). -/
structure Row where
  nitrogen : ℚ
  phosphorus : ℚ
  potassium : ℚ
  ph : ℚ
deriving DecidableEq, Repr

/-- `COLUMN_MAPPING` (src/app.py lines 87-92) composed with column
extraction: the `moisture` parameter reads the `potassium` column. -/
def colOf : Param → Row → ℚ
  | .nitrogen => Row.nitrogen
  | .phosphorus => Row.phosphorus
  | .moisture => Row.potassium
  | .pH => Row.ph

/-- `INPUT_STEPS` (src/app.py line 71). -/
def INPUT_STEPS : ℕ := 30

/-- `FORECAST_STEPS` (src/app.py line 74). -/
def FORECAST_STEPS : ℕ := 10

/-- A loaded Keras model: an opaque function from the flattened input window
to either the flattened normalized forecast vector
(`model.predict(sequence, verbose=0)[0].flatten()`) or a raised exception. -/
abbrev Model := List ℚ → Except String (List ℚ)

/-- sklearn `MinMaxScaler(feature_range=(0, 1))` fitted state: the per-column
data minimum and maximum seen by `fit`. -/
structure Scaler where
  dataMin : ℚ
  dataMax : ℚ
deriving DecidableEq, Repr

/-- sklearn `_handle_zeros_in_scale`: a zero data range is replaced by 1 so
that the transform never divides by zero. -/
def handleZeros (r : ℚ) : ℚ := if r = 0 then 1 else r

/-- `scale_` of a fitted `MinMaxScaler(feature_range=(0, 1))`:
`(1 - 0) / handle_zeros_in_scale(data_max - data_min)`. -/
def Scaler.scale (s : Scaler) : ℚ := 1 / handleZeros (s.dataMax - s.dataMin)

/-- `MinMaxScaler.transform` on one value:
`x * scale_ + min_` with `min_ = 0 - data_min * scale_`. -/
def Scaler.transform1 (s : Scaler) (x : ℚ) : ℚ := (x - s.dataMin) * s.scale

/-- `MinMaxScaler.inverse_transform` on one value:
`(y - min_) / scale_`. -/
def Scaler.inverse1 (s : Scaler) (y : ℚ) : ℚ := y / s.scale + s.dataMin

/-- Element-wise `MinMaxScaler.transform` over a column vector. -/
def Scaler.transform (s : Scaler) (xs : List ℚ) : List ℚ := xs.map s.transform1

/-- Element-wise `MinMaxScaler.inverse_transform` over a column vector. -/
def Scaler.inverseTransform (s : Scaler) (ys : List ℚ) : List ℚ := ys.map s.inverse1

/-- Minimum of a sample (the value `MinMaxScaler.fit` records as
`data_min_`; never consulted on an empty sample by the verified paths). -/
def listMin : List ℚ → ℚ
  | [] => 0
  | x :: xs => xs.foldl min x

/-- Maximum of a sample (the value `MinMaxScaler.fit` records as
`data_max_`). -/
def listMax : List ℚ → ℚ
  | [] => 0
  | x :: xs => xs.foldl max x

/-- `MinMaxScaler(feature_range=(0, 1)).fit(sample.reshape(-1, 1))`. -/
def fitScaler (sample : List ℚ) : Scaler := ⟨listMin sample, listMax sample⟩

/-- The global `SCALERS` dict: one optional fitted scaler per parameter. -/
abbrev ScalerState := Param → Option Scaler

/-- `normalize_data` (src/app.py lines 325-350): if no scaler is stored for
`param`, fit one from `data` itself and store it; then transform `data` with
the stored scaler.  Returns the updated `SCALERS` state together with the
flattened normalized values.  (When a scaler is already stored, the update
rewrites the slot with its existing value, which is extensionally the
"no write" of the Python code.) -/
def normalize_data (scalers : ScalerState) (param : Param) (data : List ℚ) :
    ScalerState × List ℚ :=
  let s := (scalers param).getD (fitScaler data)
  (Function.update scalers param (some s), s.transform data)

/-- `denormalize_data` (src/app.py lines 353-371): inverse-transform with the
stored scaler, or return the input unchanged when no scaler exists. -/
def denormalize_data (scalers : ScalerState) (param : Param) (ys : List ℚ) :
    List ℚ :=
  match scalers param with
  | some s => s.inverseTransform ys
  | none => ys

/-- `create_sequences` (src/app.py lines 304-322): `None` when fewer than
`input_steps` points are available; otherwise `data[-input_steps:]` reshaped
to `(1, input_steps, 1)`.  The Python slice `data[-input_steps:]` is the
whole array when `input_steps = 0` (since `-0 == 0`), and
`np.reshape(1, input_steps, 1)` raises a `ValueError` unless the slice has
exactly `input_steps` elements; the raised exception is modelled by the
`Except.error` branch. -/
def create_sequences (data : List ℚ) (input_steps : ℕ) :
    Except String (Option (List ℚ)) :=
  if data.length < input_steps then .ok none
  else
    let tail := if input_steps = 0 then data else data.drop (data.length - input_steps)
    if tail.length = input_steps then .ok (some tail)
    else .error ("cannot reshape array of size " ++ toString tail.length ++
      " into shape (1," ++ toString input_steps ++ ",1)")

/-- `fetch_sensor_data` (src/app.py lines 116-156): `None` when the Supabase
client is not configured; otherwise the query
`order('datetime', desc=False).limit(limit)`, i.e. the first `limit` rows of
the ascending store, with `None` returned when the response holds no rows. -/
def fetch_sensor_data (supabaseOk : Bool) (store : List Row) (limit : ℕ) :
    Option (List Row) :=
  if supabaseOk = false then none
  else
    let rows := store.take limit
    if rows = [] then none else some rows

/-- Python `round(x, 3)` (round to 3 decimal places). -/
def round3 (x : ℚ) : ℚ := (round (x * 1000) : ℤ) / 1000

/-- Python `round(x, 2)` (round to 2 decimal places; used only for
`trend_strength` in src/app.py line 663). -/
def round2 (x : ℚ) : ℚ := (round (x * 100) : ℤ) / 100

/-- `np.mean` over the (nonempty) forecast vector. -/
def npMean (xs : List ℚ) : ℚ := xs.sum / xs.length

/-- Population variance, `np.var`; `np.std = sqrt(np.var)`, with the square
root taken by the opaque float primitive threaded through `predict`. -/
def npVar (xs : List ℚ) : ℚ :=
  (xs.map (fun x => (x - npMean xs) ^ 2)).sum / xs.length

/-- src/app.py line 648:
`"📈 Increasing" if forecast_values[-1] > current_value else "📉 Decreasing"`. -/
def trend_direction (lastForecast current : ℚ) : String :=
  if lastForecast > current then "📈 Increasing" else "📉 Decreasing"

/-- src/app.py line 649:
`abs(forecast_values[-1] - current_value) / max(current_value, 1)`. -/
def trend_strength (lastForecast current : ℚ) : ℚ :=
  |lastForecast - current| / max current 1

/-- The `statistics` sub-object of a successful per-parameter prediction
(src/app.py lines 656-664). -/
structure Stats where
  mean : ℚ
  min : ℚ
  max : ℚ
  std : ℚ
  range : ℚ
  trend : String
  trend_strength : ℚ
deriving DecidableEq, Repr

/-- A successful per-parameter prediction payload
(src/app.py lines 651-665; the `status: success` tag is carried by the
`ParamResult.ok` constructor). -/
structure ForecastPayload where
  display_name : String
  current_value : ℚ
  forecast : List ℚ
  statistics : Stats
deriving DecidableEq, Repr

/-- The value recorded under one parameter's key in
`predictions['predictions']`: a full payload, a plain error marker
(src/app.py lines 614-616 and 629-631), or a caught-exception marker with
`status: error` (src/app.py lines 668-672). -/
inductive ParamResult
  | ok (payload : ForecastPayload)
  | err (msg : String)
  | exn (display_name : String) (msg : String)
deriving DecidableEq, Repr

/-- The payload of a successful per-parameter result, if any. -/
def ParamResult.payload? : ParamResult → Option ForecastPayload
  | .ok payload => some payload
  | _ => none

/-- The `/api/predict` envelope: either an envelope-level failure
(`success: false` with the given HTTP status code) or a `success: true`
report served with HTTP 200, carrying `data_points = len(df)` and one
`ParamResult` per parameter (the nondeterministic `timestamp` field is
omitted). -/
inductive PredictResponse
  | failure (error : String) (http : ℕ)
  | success (data_points : ℕ) (results : Param → ParamResult)

/-- The ambient state read by `/api/predict`: the Supabase client flag, the
external ascending row store, the `MODELS` dict and the `SCALERS` dict. -/
structure PredictEnv where
  supabaseOk : Bool
  store : List Row
  models : Param → Option Model
  scalers : ScalerState

/-- `len(MODELS)`: the number of parameters with a loaded model. -/
def countLoaded (models : Param → Option Model) : ℕ :=
  (Param.all.filter (fun p => (models p).isSome)).length

/-- The body of the per-parameter loop of `/api/predict`
(src/app.py lines 612-672), acting on the parameter's own scaler slot:

* no model loaded (the selected columns are always present in a nonempty
  response, so `col_name not in df.columns` is never the failing disjunct)
  → plain error marker, state untouched;
* otherwise: extract the raw column, normalize (lazily fitting the scaler),
  build the window, invoke the model, denormalize, read
  `current_value = raw_data[-1]`, slice `forecast[:FORECAST_STEPS]`, read
  its last element for the trend, and assemble the rounded payload.  Every
  exception raised inside the loop body (`np.reshape`, the model call, an
  out-of-range index) is caught and recorded as an `exn` marker. -/
def predictParam (sqrtFn : ℚ → ℚ) (oScaler : Option Scaler) (oModel : Option Model)
    (df : List Row) (p : Param) : Option Scaler × ParamResult :=
  match oModel with
  | none => (oScaler, .err ("Data or model not found for " ++ p.key))
  | some model =>
    let raw : List ℚ := df.map (colOf p)
    let s : Scaler := oScaler.getD (fitScaler raw)
    match create_sequences (s.transform raw) INPUT_STEPS with
    | .error e => (some s, .exn (PARAM_NAMES p) e)
    | .ok none => (some s, .err "Insufficient data for sequence")
    | .ok (some seq) =>
      match model seq with
      | .error e => (some s, .exn (PARAM_NAMES p) e)
      | .ok outFlat =>
        let forecast := s.inverseTransform outFlat
        match raw.getLast? with
        | none => (some s, .exn (PARAM_NAMES p)
            "index -1 is out of bounds for axis 0 with size 0")
        | some current =>
          let forecastValues := forecast.take FORECAST_STEPS
          match forecastValues.getLast? with
          | none => (some s, .exn (PARAM_NAMES p) "list index out of range")
          | some lastF =>
            (some s,
             .ok { display_name := PARAM_NAMES p
                   current_value := round3 current
                   forecast := forecastValues.map round3
                   statistics :=
                     { mean := round3 (npMean forecastValues)
                       min := round3 (listMin forecastValues)
                       max := round3 (listMax forecastValues)
                       std := round3 (sqrtFn (npVar forecastValues))
                       range := round3 (listMax forecastValues - listMin forecastValues)
                       trend := trend_direction lastF current
                       trend_strength := round2 (trend_strength lastF current) } })

/-- One iteration of the `/api/predict` loop threading the shared `SCALERS`
state and accumulating the per-parameter results. -/
def predictStep (sqrtFn : ℚ → ℚ) (models : Param → Option Model) (df : List Row)
    (acc : ScalerState × (Param → ParamResult)) (p : Param) :
    ScalerState × (Param → ParamResult) :=
  (Function.update acc.1 p (predictParam sqrtFn (acc.1 p) (models p) df p).1,
   Function.update acc.2 p (predictParam sqrtFn (acc.1 p) (models p) df p).2)

/-- `/api/predict` (src/app.py lines 539-677): fail the whole request when
the Supabase client is missing (500), when zero models are loaded (500), or
when the fetch yields no rows (400); otherwise run the per-parameter loop
over all four parameters and return the combined report with HTTP 200.
(The initial results function is a placeholder overwritten for every
parameter by the fold.) -/
def predict (env : PredictEnv) (sqrtFn : ℚ → ℚ) : PredictResponse :=
  if env.supabaseOk = false then .failure "Supabase not configured" 500
  else if countLoaded env.models = 0 then
    .failure "No models loaded. Check model files." 500
  else
    match fetch_sensor_data env.supabaseOk env.store 500 with
    | none => .failure "No data available in Supabase" 400
    | some df =>
      .success df.length
        ((Param.all.foldl (predictStep sqrtFn env.models df)
          (env.scalers, fun _ => ParamResult.err "")).2)

/-- Load status of one model artifact (`MODEL_INFO[param]['status']`,
src/app.py lines 259, 275, 285), with `unloaded` as the pre-startup state. -/
inductive ModelStatus
  | unloaded
  | loaded
  | not_found
  | error (msg : String)
deriving DecidableEq, Repr

/-- The filesystem/loader environment of `load_pretrained_models`: for each
parameter, `none` when `os.path.exists(model_path)` is false, otherwise the
outcome of `load_model` (a loaded model or a raised exception). -/
abbrev DiskState := Param → Option (Except String Model)

/-- One iteration of the `load_pretrained_models` loop
(src/app.py lines 236-291): file present and loading succeeds → store the
model and status `loaded`; file absent → status `not_found`; loading raises
→ status `error`. -/
def loadStep (disk : DiskState) (acc : (Param → Option Model) × (Param → ModelStatus))
    (p : Param) : (Param → Option Model) × (Param → ModelStatus) :=
  match disk p with
  | none => (acc.1, Function.update acc.2 p .not_found)
  | some (Except.error e) => (acc.1, Function.update acc.2 p (.error e))
  | some (Except.ok m) =>
    (Function.update acc.1 p (some m), Function.update acc.2 p .loaded)

/-- `load_pretrained_models` (src/app.py lines 211-302): iterate the loop
over the four parameters, starting from an empty `MODELS` dict and
all-`unloaded` statuses.  Returns the final `MODELS` and the status column
of `MODEL_INFO`. -/
def load_pretrained_models (disk : DiskState) :
    (Param → Option Model) × (Param → ModelStatus) :=
  Param.all.foldl (loadStep disk) (fun _ => none, fun _ => .unloaded)

/-- The expected per-parameter status as a function of that parameter's disk
outcome alone (the independence characterization proved below). -/
def statusOf : Option (Except String Model) → ModelStatus
  | none => .not_found
  | some (Except.error e) => .error e
  | some (Except.ok _) => .loaded

/-- The expected `MODELS` entry as a function of that parameter's disk
outcome alone. -/
def modelOf : Option (Except String Model) → Option Model
  | some (Except.ok m) => some m
  | _ => none

/-- The `status` field of `/api/health` (src/app.py line 920):
`healthy` exactly when at least one model is loaded. -/
def healthStatus (models : Param → Option Model) : String :=
  if 0 < countLoaded models then "healthy" else "degraded"

/-- The `/api/historical` response: an error envelope with its HTTP code, or
`success: true` with the caller's parameter string, the display name, the
echoed `limit`, `total_rows = len(df)`, `returned_rows = len(hist_df)`, the
values column and the reset indices. -/
inductive HistResponse
  | failure (error : String) (http : ℕ)
  | success (parameter : String) (display_name : String) (limit : ℕ)
      (total_rows : ℕ) (returned_rows : ℕ) (values : List ℚ) (indices : List ℕ)
deriving DecidableEq, Repr

/-- The request-level `col_mapping` dict of `get_historical`
(src/app.py lines 730-735), as an association list in insertion order. -/
def col_mapping_assoc : List (String × String) :=
  [("nitrogen", "nitrogen"), ("N", "nitrogen"),
   ("phosphorus", "phosphorus"), ("P", "phosphorus"),
   ("potassium", "potassium"), ("K", "potassium"), ("moisture", "potassium"),
   ("pH", "ph"), ("ph", "ph")]

/-- The module-level `COLUMN_MAPPING` dict keyed by parameter-name string
(src/app.py lines 87-92), used as the inner fallback of `get_historical`. -/
def COLUMN_MAPPING_assoc : List (String × String) :=
  [("nitrogen", "nitrogen"), ("phosphorus", "phosphorus"),
   ("moisture", "potassium"), ("pH", "ph")]

/-- The module-level `PARAM_NAMES` dict keyed by parameter-name string
(src/app.py lines 95-100). -/
def PARAM_NAMES_assoc : List (String × String) :=
  [("nitrogen", "Nitrogen (N)"), ("phosphorus", "Phosphorus (P)"),
   ("moisture", "Soil Moisture (K)"), ("pH", "Soil pH")]

/-- src/app.py line 736:
`col_mapping.get(param, COLUMN_MAPPING.get(param, 'nitrogen'))`. -/
def colNameFor (param : String) : String :=
  (col_mapping_assoc.lookup param).getD
    ((COLUMN_MAPPING_assoc.lookup param).getD "nitrogen")

/-- Column presence/extraction for `hist_df[col_name]`: the fetched frame
always carries exactly the selected columns, of which four are numeric
candidates of `colNameFor`. -/
def columnGet (col : String) : Option (Row → ℚ) :=
  if col = "nitrogen" then some Row.nitrogen
  else if col = "phosphorus" then some Row.phosphorus
  else if col = "potassium" then some Row.potassium
  else if col = "ph" then some Row.ph
  else none

/-- pandas `df.tail(n)`: the last `min(n, len(df))` rows. -/
def dfTail (df : List Row) (n : ℕ) : List Row := df.drop (df.length - n)

/-- `/api/historical` (src/app.py lines 679-762): fetch `limit * 2` rows
("fetch extra"), 404 on no data or on a missing column, otherwise
`df.tail(limit)` with reset indices `0 .. len(hist_df) - 1`, labeled with
the caller's parameter string and
`PARAM_NAMES.get(param, param)` as display name. -/
def get_historical (supabaseOk : Bool) (store : List Row) (param : String)
    (limit : ℕ) : HistResponse :=
  if supabaseOk = false then .failure "Supabase not configured" 500
  else
    match fetch_sensor_data supabaseOk store (limit * 2) with
    | none => .failure "No data available in Supabase" 404
    | some df =>
      let col := colNameFor param
      match columnGet col with
      | none => .failure ("Column " ++ col ++ " not found") 404
      | some getCol =>
        let hist := dfTail df limit
        .success param ((PARAM_NAMES_assoc.lookup param).getD param) limit
          df.length hist.length (hist.map getCol) (List.range hist.length)

/-- `v` is a value carrying at most `d` decimal places (the form produced by
Python's `round(v, d)`). -/
def roundedTo (d : ℕ) (v : ℚ) : Prop := ∃ k : ℤ, v = (k : ℚ) / 10 ^ d

/-! ### Concrete instances

Fixed environments used by the witnesses and counterexamples below. -/

/-- An opaque stand-in for the float square root (the `std` statistic is the
only consumer; its exact values are irrelevant to every claim). -/
def sqrt0 : ℚ → ℚ := fun _ => 0

/-- A sensor row whose four numeric columns all read 1. -/
def rowOnes : Row := { nitrogen := 1, phosphorus := 1, potassium := 1, ph := 1 }

/-- A 30-row store of constant readings (exactly one full input window). -/
def dfC : List Row := List.replicate 30 rowOnes

/-- A stub model that always returns the normalized forecast
`[0.123] * 10`. -/
def modelStub123 : Model := fun _ => .ok (List.replicate 10 (123 / 1000))

/-- A stub model whose invocation always raises. -/
def modelBoom : Model := fun _ => .error "boom"

/-- Four loaded models over the 30-row store, the nitrogen model always
raising, with no pre-fitted scalers. -/
def envC1 : PredictEnv :=
  { supabaseOk := true
    store := dfC
    models := fun q => match q with
      | .nitrogen => some modelBoom
      | _ => some modelStub123
    scalers := fun _ => none }

/-- The payload `/api/predict` computes for a parameter of `dfC` under
`modelStub123`: scaler lazily fitted on the constant column (min = max = 1,
so the guarded scale is 1), forecast denormalized to `1.123` everywhere. -/
def payloadC : ForecastPayload :=
  { display_name := "Nitrogen (N)"
    current_value := 1
    forecast := List.replicate 10 (1123 / 1000)
    statistics :=
      { mean := 1123 / 1000
        min := 1123 / 1000
        max := 1123 / 1000
        std := 0
        range := 0
        trend := "📈 Increasing"
        trend_strength := 12 / 100 } }

/-- The empty `SCALERS` dict. -/
def scalers0 : ScalerState := fun _ => none

/-- A scaler store holding one scaler fitted on the sample `[1, 3]`. -/
def scalers4 : ScalerState :=
  Function.update scalers0 Param.pH (some (fitScaler [1, 3]))

/-- A disk state with three loadable artifacts and the nitrogen artifact
missing. -/
def diskC : DiskState := fun q => match q with
  | .nitrogen => none
  | _ => some (Except.ok modelStub123)

/-- A store of 250 chronologically ordered rows whose every column at
position `i` reads `i`. -/
def store250 : List Row :=
  (List.range 250).map (fun i =>
    { nitrogen := (i : ℚ), phosphorus := (i : ℚ), potassium := (i : ℚ), ph := (i : ℚ) })

/-- A one-row store. -/
def store1 : List Row := [{ nitrogen := 5, phosphorus := 6, potassium := 7, ph := 8 }]

/-! ### Helper lemmas -/

/-- The guarded scale of a fitted scaler is never zero. -/
theorem Scaler.scale_ne_zero (s : Scaler) : s.scale ≠ 0 := by
  unfold Scaler.scale handleZeros
  split
  · norm_num
  · next h => exact one_div_ne_zero h

/-- One-point round trip of the min-max transform. -/
theorem Scaler.inverse1_transform1 (s : Scaler) (v : ℚ) :
    s.inverse1 (s.transform1 v) = v := by
  have h := s.scale_ne_zero
  unfold Scaler.inverse1 Scaler.transform1
  rw [mul_div_cancel_right₀ _ h]
  ring

/-- Reduction of `create_sequences` when enough data is present and the
window length is positive. -/
theorem create_sequences_of_le {data : List ℚ} {w : ℕ} (hw : w ≠ 0)
    (h : w ≤ data.length) :
    create_sequences data w = .ok (some (data.drop (data.length - w))) := by
  unfold create_sequences
  rw [if_neg (by omega)]
  simp only [if_neg hw]
  rw [if_pos (by rw [List.length_drop]; omega)]

/-- A nonempty suffix ends where the whole list ends. -/
theorem getLast?_of_suffix {s l : List ℚ} (h : s <:+ l) (hs : s ≠ []) :
    l.getLast? = s.getLast? := by
  obtain ⟨t, rfl⟩ := h
  exact List.getLast?_append_of_ne_nil t hs

/-! ### Claim theorems -/

/-- C4: normalization round-trip.  For every parameter `P` whose stored
scaler was fitted on a sample with distinct minimum and maximum, and every
raw vector `x`, denormalizing the normalized vector (with the post-call
scaler state, as `/api/predict` does) recovers `x` exactly. -/
theorem normalize_roundtrip (scalers : ScalerState) (P : Param) (sample x : List ℚ)
    (hfit : listMin sample ≠ listMax sample)
    (hsc : scalers P = some (fitScaler sample)) :
    denormalize_data (normalize_data scalers P x).1 P
      (normalize_data scalers P x).2 = x := by
  simp only [normalize_data, denormalize_data, hsc, Option.getD_some,
    Function.update_same, Scaler.transform, Scaler.inverseTransform, List.map_map]
  calc x.map ((fitScaler sample).inverse1 ∘ (fitScaler sample).transform1)
      = x.map id := List.map_congr_left (fun v _ => Scaler.inverse1_transform1 _ v)
    _ = x := List.map_id x

/-- C4 witness: the round trip evaluated with the scaler fitted on `[1, 3]`
and input `[2, 5]`. -/
theorem normalize_roundtrip_witness :
    listMin [(1 : ℚ), 3] ≠ listMax [(1 : ℚ), 3] ∧
    denormalize_data (normalize_data scalers4 Param.pH [2, 5]).1 Param.pH
      (normalize_data scalers4 Param.pH [2, 5]).2 = [2, 5] :=
  ⟨by decide, normalize_roundtrip scalers4 Param.pH [1, 3] [2, 5] (by decide) (by decide)⟩

/-- C5 counterexample: at window length 0 and the nonempty series `[1]`, the
claim says `create_sequences` returns the (empty) window, but the code
raises: `[1][-0:]` is the whole array and `reshape(1, 0, 1)` fails on one
element.  So the claim is false as stated for `w = 0`. -/
theorem create_sequences_zero_window_counterexample :
    ¬ ∃ win : List ℚ, create_sequences [1] 0 = .ok (some win) := by
  rintro ⟨win, h⟩
  simp [create_sequences] at h

/-- C5 (amended to positive window lengths): for `1 ≤ w`,
`create_sequences` returns `None` iff the series is shorter than `w`, and
any returned window is a length-`w` suffix of the series, in particular
ending in the series' last element. -/
theorem create_sequences_gate (data : List ℚ) (w : ℕ) (hw : 1 ≤ w) :
    (create_sequences data w = .ok none ↔ data.length < w) ∧
    (∀ win, create_sequences data w = .ok (some win) →
      win.length = w ∧ win <:+ data ∧ win.getLast? = data.getLast?) := by
  have hw0 : w ≠ 0 := by omega
  by_cases hlt : data.length < w
  · unfold create_sequences
    rw [if_pos hlt]
    exact ⟨by simp [hlt], by intro win hwin; simp at hwin⟩
  · rw [create_sequences_of_le hw0 (by omega)]
    have hlen : (data.drop (data.length - w)).length = w := by
      rw [List.length_drop]; omega
    constructor
    · constructor
      · intro heq; simp at heq
      · intro hcon; exact absurd hcon hlt
    · intro win hwin
      have hwin2 : win = data.drop (data.length - w) := by
        simpa using hwin.symm
      subst hwin2
      refine ⟨hlen, List.drop_suffix _ _, ?_⟩
      refine (getLast?_of_suffix (List.drop_suffix _ _) ?_).symm
      intro hnil
      rw [hnil] at hlen
      simp at hlen
      omega

/-- C5 witness: the gate evaluated at series `[1, 2, 3]` and window length
2, whose window `[2, 3]` is the length-2 suffix ending in 3. -/
theorem create_sequences_gate_witness :
    (1 ≤ 2) ∧
    ([(2 : ℚ), 3].length = 2 ∧ [(2 : ℚ), 3] <:+ [(1 : ℚ), 2, 3] ∧
      [(2 : ℚ), 3].getLast? = [(1 : ℚ), 2, 3].getLast?) :=
  ⟨by decide, (create_sequences_gate [1, 2, 3] 2 (by decide)).2 [2, 3] (by rfl)⟩

/-- C6: trend tie-break.  The reported trend is the increasing variant
exactly when the forecast's last value strictly exceeds the current value,
and equal values classify as decreasing. -/
theorem trend_direction_tiebreak (f c : ℚ) :
    (trend_direction f c = "📈 Increasing" ↔ c < f) ∧
    trend_direction c c = "📉 Decreasing" := by
  have hne : ("📉 Decreasing" : String) ≠ "📈 Increasing" := by decide
  constructor
  · unfold trend_direction
    by_cases h : f > c
    · simp [h]
    · rw [if_neg h]
      exact ⟨fun heq => absurd heq hne, fun hc => absurd hc h⟩
  · simp [trend_direction]

/-- C7: trend-strength guard.  The divisor `max(current, 1)` is always
positive (so the division never divides by zero), the strength times the
divisor recovers `|forecast[-1] - current|`, and at `current = 0` the
unrounded strength is exactly `|forecast[-1]|`. -/
theorem trend_strength_guard (f c : ℚ) :
    (0 : ℚ) < max c 1 ∧
    trend_strength f c * max c 1 = |f - c| ∧
    trend_strength f 0 = |f| := by
  have hpos : (0 : ℚ) < max c 1 := lt_of_lt_of_le one_pos (le_max_right c 1)
  refine ⟨hpos, div_mul_cancel₀ _ (ne_of_gt hpos), ?_⟩
  simp [trend_strength]

/-- C8: lazy-fit idempotence.  With no stored scaler for `P`, the first
`normalize_data` call fits the scaler from `x` itself, stores it, and
applies it; a second call with the same data returns the same output and
leaves the scaler state unchanged. -/
theorem normalize_lazy_idempotent (scalers : ScalerState) (P : Param) (x : List ℚ)
    (h : scalers P = none) :
    (normalize_data scalers P x).1 P = some (fitScaler x) ∧
    (normalize_data scalers P x).2 = (fitScaler x).transform x ∧
    (normalize_data (normalize_data scalers P x).1 P x).2 =
      (normalize_data scalers P x).2 ∧
    (normalize_data (normalize_data scalers P x).1 P x).1 =
      (normalize_data scalers P x).1 := by
  simp only [normalize_data, h, Option.getD_none, Function.update_same,
    Option.getD_some]
  exact ⟨trivial, trivial, trivial, Function.update_idem _ _ _⟩

/-- C8 witness: the lazy fit evaluated at the empty scaler store, parameter
`moisture`, and data `[2, 4]`. -/
theorem normalize_lazy_idempotent_witness :
    scalers0 Param.moisture = none ∧
    ((normalize_data scalers0 Param.moisture [2, 4]).1 Param.moisture =
        some (fitScaler [2, 4]) ∧
      (normalize_data scalers0 Param.moisture [2, 4]).2 =
        (fitScaler [2, 4]).transform [2, 4] ∧
      (normalize_data (normalize_data scalers0 Param.moisture [2, 4]).1
          Param.moisture [2, 4]).2 =
        (normalize_data scalers0 Param.moisture [2, 4]).2 ∧
      (normalize_data (normalize_data scalers0 Param.moisture [2, 4]).1
          Param.moisture [2, 4]).1 =
        (normalize_data scalers0 Param.moisture [2, 4]).1) :=
  ⟨rfl, normalize_lazy_idempotent scalers0 Param.moisture [2, 4] rfl⟩

/-- A parameter string outside the recognized names misses all three
string-keyed dicts of `get_historical`. -/
theorem lookup_eq_none_of_unrecognized (param : String)
    (h : param ∉ ["nitrogen", "N", "phosphorus", "P", "potassium", "K",
      "moisture", "pH", "ph"]) :
    col_mapping_assoc.lookup param = none ∧
    COLUMN_MAPPING_assoc.lookup param = none ∧
    PARAM_NAMES_assoc.lookup param = none := by
  simp only [List.mem_cons, List.not_mem_nil, or_false, not_or] at h
  obtain ⟨h1, h2, h3, h4, h5, h6, h7, h8, h9⟩ := h
  have e1 : (param == "nitrogen") = false := beq_eq_false_iff_ne.mpr h1
  have e2 : (param == "N") = false := beq_eq_false_iff_ne.mpr h2
  have e3 : (param == "phosphorus") = false := beq_eq_false_iff_ne.mpr h3
  have e4 : (param == "P") = false := beq_eq_false_iff_ne.mpr h4
  have e5 : (param == "potassium") = false := beq_eq_false_iff_ne.mpr h5
  have e6 : (param == "K") = false := beq_eq_false_iff_ne.mpr h6
  have e7 : (param == "moisture") = false := beq_eq_false_iff_ne.mpr h7
  have e8 : (param == "pH") = false := beq_eq_false_iff_ne.mpr h8
  have e9 : (param == "ph") = false := beq_eq_false_iff_ne.mpr h9
  refine ⟨?_, ?_, ?_⟩ <;>
    simp [col_mapping_assoc, COLUMN_MAPPING_assoc, PARAM_NAMES_assoc,
      List.lookup, e1, e2, e3, e4, e5, e6, e7, e8, e9]

/-- C10: unknown-parameter fallback.  For any parameter string outside the
recognized names, `/api/historical` (with data available) does not error: it
silently falls back to the nitrogen column and returns a success response
whose `parameter` and `display_name` echo the caller's string while the
values come from the nitrogen column of the tail slice. -/
theorem historical_unknown_param_fallback (store : List Row) (param : String)
    (limit : ℕ) (hstore : store ≠ []) (hlimit : limit ≠ 0)
    (hunk : param ∉ ["nitrogen", "N", "phosphorus", "P", "potassium", "K",
      "moisture", "pH", "ph"]) :
    get_historical true store param limit =
      .success param param limit (store.take (limit * 2)).length
        (dfTail (store.take (limit * 2)) limit).length
        ((dfTail (store.take (limit * 2)) limit).map Row.nitrogen)
        (List.range (dfTail (store.take (limit * 2)) limit).length) := by
  obtain ⟨e1, e2, e3⟩ := lookup_eq_none_of_unrecognized param hunk
  have hfetch : fetch_sensor_data true store (limit * 2) =
      some (store.take (limit * 2)) := by
    unfold fetch_sensor_data
    rw [if_neg (by simp)]
    rw [if_neg (by
      rw [List.take_eq_nil_iff, not_or]
      exact ⟨by omega, hstore⟩)]
  have hcol : colNameFor param = "nitrogen" := by
    unfold colNameFor
    rw [e1, e2]
    rfl
  unfold get_historical
  rw [if_neg (by simp), hfetch]
  simp only [hcol, e3]
  rfl

/-- C10 witness: the fallback evaluated at the one-row store and the
unrecognized parameter string `temperature`. -/
theorem historical_unknown_param_fallback_witness :
    get_historical true store1 "temperature" 100 =
      .success "temperature" "temperature" 100 1 1 [5] [0] :=
  historical_unknown_param_fallback store1 "temperature" 100
    (by decide) (by decide) (by decide)

/-- C2 evidence: with 250 chronologically ordered rows holding value `i` at
position `i` and `limit = 100`, `/api/historical` fetches the 200 oldest
rows (`order('datetime', desc=False).limit(200)`) and returns the values at
positions 100..199, which is not the store's last-100 tail (positions
150..249) that the claim and the code's own docstring
("Fetch latest sensor readings") promise. -/
theorem historical_returns_oldest_window :
    get_historical true store250 "nitrogen" 100 =
      .success "nitrogen" "Nitrogen (N)" 100 200 100
        ((List.range 100).map (fun i => ((100 + i : ℕ) : ℚ)))
        (List.range 100) ∧
    ((List.range 100).map (fun i => ((100 + i : ℕ) : ℚ))) ≠
      ((store250.drop 150).map Row.nitrogen) := by
  constructor
  · rfl
  · decide

/-- A loading step leaves the `MODELS` entries of other parameters
untouched. -/
theorem loadStep_fst_ne {r q : Param} (h : r ≠ q) (disk : DiskState)
    (acc : (Param → Option Model) × (Param → ModelStatus)) :
    (loadStep disk acc q).1 r = acc.1 r := by
  cases hd : disk q with
  | none => simp [loadStep, hd]
  | some me =>
    cases me with
    | error e => simp [loadStep, hd]
    | ok m => simp [loadStep, hd, Function.update_noteq h]

/-- A loading step leaves the statuses of other parameters untouched. -/
theorem loadStep_snd_ne {r q : Param} (h : r ≠ q) (disk : DiskState)
    (acc : (Param → Option Model) × (Param → ModelStatus)) :
    (loadStep disk acc q).2 r = acc.2 r := by
  cases hd : disk q with
  | none => simp [loadStep, hd, Function.update_noteq h]
  | some me =>
    cases me with
    | error e => simp [loadStep, hd, Function.update_noteq h]
    | ok m => simp [loadStep, hd, Function.update_noteq h]

/-- A loading step records exactly the status determined by the parameter's
own disk outcome. -/
theorem loadStep_snd_self (disk : DiskState)
    (acc : (Param → Option Model) × (Param → ModelStatus)) (q : Param) :
    (loadStep disk acc q).2 q = statusOf (disk q) := by
  cases hd : disk q with
  | none => simp [loadStep, hd, statusOf]
  | some me =>
    cases me with
    | error e => simp [loadStep, hd, statusOf]
    | ok m => simp [loadStep, hd, statusOf]

/-- A loading step stores exactly the model determined by the parameter's
own disk outcome (starting from an empty slot). -/
theorem loadStep_fst_self (disk : DiskState)
    (acc : (Param → Option Model) × (Param → ModelStatus)) (q : Param)
    (h : acc.1 q = none) :
    (loadStep disk acc q).1 q = modelOf (disk q) := by
  cases hd : disk q with
  | none => simp [loadStep, hd, modelOf, h]
  | some me =>
    cases me with
    | error e => simp [loadStep, hd, modelOf, h]
    | ok m => simp [loadStep, hd, modelOf]

/-- Pointwise characterization of `load_pretrained_models`: each parameter's
final status and `MODELS` entry depend only on that parameter's own disk
outcome. -/
theorem load_models_pointwise (disk : DiskState) (p : Param) :
    (load_pretrained_models disk).2 p = statusOf (disk p) ∧
    (load_pretrained_models disk).1 p = modelOf (disk p) := by
  have hunfold : load_pretrained_models disk =
      loadStep disk (loadStep disk (loadStep disk (loadStep disk
        (fun _ => none, fun _ => .unloaded) .nitrogen) .phosphorus) .moisture) .pH := rfl
  rw [hunfold]
  cases p with
  | nitrogen =>
    constructor
    · rw [loadStep_snd_ne (by decide), loadStep_snd_ne (by decide),
        loadStep_snd_ne (by decide), loadStep_snd_self]
    · rw [loadStep_fst_ne (by decide), loadStep_fst_ne (by decide),
        loadStep_fst_ne (by decide), loadStep_fst_self disk _ _ rfl]
  | phosphorus =>
    constructor
    · rw [loadStep_snd_ne (by decide), loadStep_snd_ne (by decide),
        loadStep_snd_self]
    · rw [loadStep_fst_ne (by decide), loadStep_fst_ne (by decide),
        loadStep_fst_self disk _ _ (by rw [loadStep_fst_ne (by decide)])]
  | moisture =>
    constructor
    · rw [loadStep_snd_ne (by decide), loadStep_snd_self]
    · rw [loadStep_fst_ne (by decide),
        loadStep_fst_self disk _ _
          (by rw [loadStep_fst_ne (by decide), loadStep_fst_ne (by decide)])]
  | pH =>
    constructor
    · rw [loadStep_snd_self]
    · rw [loadStep_fst_self disk _ _
        (by rw [loadStep_fst_ne (by decide), loadStep_fst_ne (by decide),
          loadStep_fst_ne (by decide)])]

/-- One loaded model makes `len(MODELS)` positive. -/
theorem countLoaded_pos (models : Param → Option Model) (p : Param)
    (h : (models p).isSome = true) : 0 < countLoaded models := by
  unfold countLoaded
  have hp : p ∈ Param.all := by cases p <;> decide
  have hmem : p ∈ Param.all.filter (fun q => (models q).isSome) :=
    List.mem_filter.mpr ⟨hp, h⟩
  exact List.length_pos.mpr (List.ne_nil_of_mem hmem)

/-- C9: model-load independence and readiness.  Loading is per-parameter
independent (each parameter's status and `MODELS` entry are a function of
its own artifact alone: `loaded` on success, `not_found` on a missing file,
`error` on a load exception); the health check reports `healthy` exactly
when the count of loaded models is positive; and with one artifact missing
and the other three loading, readiness holds, the missing parameter's
status is `not_found`, and the rest are `loaded`. -/
theorem load_models_independent :
    (∀ disk : DiskState, ∀ p : Param,
      (load_pretrained_models disk).2 p = statusOf (disk p) ∧
      (load_pretrained_models disk).1 p = modelOf (disk p)) ∧
    (∀ models : Param → Option Model,
      healthStatus models = "healthy" ↔ 0 < countLoaded models) ∧
    (∀ disk : DiskState, ∀ p : Param, disk p = none →
      (∀ q, q ≠ p → ∃ m, disk q = some (Except.ok m)) →
      healthStatus (load_pretrained_models disk).1 = "healthy" ∧
      (load_pretrained_models disk).2 p = .not_found ∧
      (∀ q, q ≠ p → (load_pretrained_models disk).2 q = .loaded)) := by
  have hhealth : ∀ models : Param → Option Model,
      healthStatus models = "healthy" ↔ 0 < countLoaded models := by
    intro models
    unfold healthStatus
    by_cases h : 0 < countLoaded models
    · simp [h]
    · rw [if_neg h]
      exact ⟨fun heq => absurd heq (by decide), fun hc => absurd hc h⟩
  refine ⟨fun disk p => load_models_pointwise disk p, hhealth, ?_⟩
  intro disk p hnone hrest
  obtain ⟨q0, hq0⟩ : ∃ q0 : Param, q0 ≠ p := by
    cases p with
    | nitrogen => exact ⟨.phosphorus, by decide⟩
    | phosphorus => exact ⟨.nitrogen, by decide⟩
    | moisture => exact ⟨.nitrogen, by decide⟩
    | pH => exact ⟨.nitrogen, by decide⟩
  obtain ⟨m0, hm0⟩ := hrest q0 hq0
  refine ⟨?_, ?_, ?_⟩
  · refine (hhealth _).mpr (countLoaded_pos _ q0 ?_)
    rw [(load_models_pointwise disk q0).2, hm0]
    rfl
  · rw [(load_models_pointwise disk p).1, hnone]
    rfl
  · intro q hq
    obtain ⟨m, hm⟩ := hrest q hq
    rw [(load_models_pointwise disk q).1, hm]
    rfl

/-- C9 witness: the scenario evaluated with the nitrogen artifact missing
and the other three present and loadable. -/
theorem load_models_independent_witness :
    healthStatus (load_pretrained_models diskC).1 = "healthy" ∧
    (load_pretrained_models diskC).2 Param.nitrogen = .not_found ∧
    (load_pretrained_models diskC).2 Param.phosphorus = .loaded ∧
    (load_pretrained_models diskC).2 Param.moisture = .loaded ∧
    (load_pretrained_models diskC).2 Param.pH = .loaded := by
  have hrest : ∀ q, q ≠ Param.nitrogen → ∃ m, diskC q = some (Except.ok m) := by
    intro q hq
    cases q with
    | nitrogen => exact absurd rfl hq
    | phosphorus => exact ⟨modelStub123, rfl⟩
    | moisture => exact ⟨modelStub123, rfl⟩
    | pH => exact ⟨modelStub123, rfl⟩
  obtain ⟨h1, h2, h3⟩ := load_models_independent.2.2 diskC Param.nitrogen rfl hrest
  exact ⟨h1, h2, h3 _ (by decide), h3 _ (by decide), h3 _ (by decide)⟩

/-- C3 counterexample: on the constant 30-row store with the stub model
forecasting `0.123` (normalized), the pipeline's unrounded trend strength is
`0.123`, whose 3-decimal rounding is `0.123` itself — but the payload
records `0.12`, because src/app.py line 663 rounds `trend_strength` to two
decimal places, not three.  So not every statistic is rounded to exactly 3
decimal places. -/
theorem trend_strength_not_rounded3_counterexample :
    ((predictParam sqrt0 none (some modelStub123) dfC Param.nitrogen).2.payload?.map
      (fun payload => payload.statistics.trend_strength)) = some (12 / 100) ∧
    trend_strength (1123 / 1000) 1 = 123 / 1000 ∧
    round3 (123 / 1000) = 123 / 1000 ∧
    (12 / 100 : ℚ) ≠ round3 (123 / 1000) := by
  refine ⟨?_, by decide, by decide, by decide⟩
  decide

/-- C3 (amended): in every successful per-parameter prediction payload, the
current value, every forecast value, and the statistics `mean`, `min`,
`max`, `std` and `range` are rounded to exactly 3 decimal places, while
`trend_strength` is rounded to 2 decimal places. -/
theorem payload_rounding (sqrtFn : ℚ → ℚ) (oScaler : Option Scaler)
    (oModel : Option Model) (df : List Row) (p : Param)
    (payload : ForecastPayload)
    (h : (predictParam sqrtFn oScaler oModel df p).2 = ParamResult.ok payload) :
    roundedTo 3 payload.current_value ∧
    (∀ v ∈ payload.forecast, roundedTo 3 v) ∧
    roundedTo 3 payload.statistics.mean ∧
    roundedTo 3 payload.statistics.min ∧
    roundedTo 3 payload.statistics.max ∧
    roundedTo 3 payload.statistics.std ∧
    roundedTo 3 payload.statistics.range ∧
    roundedTo 2 payload.statistics.trend_strength := by
  have h3 : ∀ x : ℚ, roundedTo 3 (round3 x) :=
    fun x => ⟨round (x * 1000), by norm_num [round3]⟩
  have h2 : ∀ x : ℚ, roundedTo 2 (round2 x) :=
    fun x => ⟨round (x * 100), by norm_num [round2]⟩
  rcases oModel with _ | model
  · simp [predictParam] at h
  · simp only [predictParam] at h
    split at h
    · simp at h
    · simp at h
    · split at h
      · simp at h
      · split at h
        · simp at h
        · split at h
          · simp at h
          · simp only [ParamResult.ok.injEq] at h
            subst h
            refine ⟨h3 _, ?_, h3 _, h3 _, h3 _, h3 _, h3 _, h2 _⟩
            intro v hv
            obtain ⟨u, _, rfl⟩ := List.mem_map.mp hv
            exact h3 u

/-- C3 witness: the amended rounding property evaluated on the concrete
payload produced for the constant store under the stub model. -/
theorem payload_rounding_witness :
    roundedTo 3 payloadC.current_value ∧
    (∀ v ∈ payloadC.forecast, roundedTo 3 v) ∧
    roundedTo 3 payloadC.statistics.mean ∧
    roundedTo 3 payloadC.statistics.min ∧
    roundedTo 3 payloadC.statistics.max ∧
    roundedTo 3 payloadC.statistics.std ∧
    roundedTo 3 payloadC.statistics.range ∧
    roundedTo 2 payloadC.statistics.trend_strength :=
  payload_rounding sqrt0 none (some modelStub123) dfC Param.nitrogen payloadC
    (by decide)

/-- A prediction step leaves the scaler slots of other parameters
untouched. -/
theorem predictStep_fst_ne {r q : Param} (h : r ≠ q) (sqrtFn : ℚ → ℚ)
    (models : Param → Option Model) (df : List Row)
    (acc : ScalerState × (Param → ParamResult)) :
    (predictStep sqrtFn models df acc q).1 r = acc.1 r :=
  Function.update_noteq h _ _

/-- A prediction step leaves the recorded results of other parameters
untouched. -/
theorem predictStep_snd_ne {r q : Param} (h : r ≠ q) (sqrtFn : ℚ → ℚ)
    (models : Param → Option Model) (df : List Row)
    (acc : ScalerState × (Param → ParamResult)) :
    (predictStep sqrtFn models df acc q).2 r = acc.2 r :=
  Function.update_noteq h _ _

/-- A prediction step records for its own parameter exactly the result of
`predictParam` on that parameter's own scaler slot and model. -/
theorem predictStep_snd_self (sqrtFn : ℚ → ℚ) (models : Param → Option Model)
    (df : List Row) (acc : ScalerState × (Param → ParamResult)) (q : Param) :
    (predictStep sqrtFn models df acc q).2 q =
      (predictParam sqrtFn (acc.1 q) (models q) df q).2 :=
  Function.update_same _ _ _

/-- Per-parameter independence of the `/api/predict` loop: the result
recorded for each parameter is a function of the initial state's own slot,
own model, and the shared frame alone — no other parameter's behaviour can
influence it. -/
theorem predict_results (sqrtFn : ℚ → ℚ) (models : Param → Option Model)
    (df : List Row) (sc : ScalerState) (r0 : Param → ParamResult) (p : Param) :
    (Param.all.foldl (predictStep sqrtFn models df) (sc, r0)).2 p =
      (predictParam sqrtFn (sc p) (models p) df p).2 := by
  have hunfold : Param.all.foldl (predictStep sqrtFn models df) (sc, r0) =
      predictStep sqrtFn models df (predictStep sqrtFn models df
        (predictStep sqrtFn models df (predictStep sqrtFn models df (sc, r0)
          .nitrogen) .phosphorus) .moisture) .pH := rfl
  rw [hunfold]
  cases p with
  | nitrogen =>
    rw [predictStep_snd_ne (by decide), predictStep_snd_ne (by decide),
      predictStep_snd_ne (by decide), predictStep_snd_self]
  | phosphorus =>
    rw [predictStep_snd_ne (by decide), predictStep_snd_ne (by decide),
      predictStep_snd_self, predictStep_fst_ne (by decide)]
  | moisture =>
    rw [predictStep_snd_ne (by decide), predictStep_snd_self,
      predictStep_fst_ne (by decide), predictStep_fst_ne (by decide)]
  | pH =>
    rw [predictStep_snd_self, predictStep_fst_ne (by decide),
      predictStep_fst_ne (by decide), predictStep_fst_ne (by decide)]

/-- With a full input window available and a model that returns a nonempty
forecast, the per-parameter loop body produces a full payload. -/
theorem predictParam_success (sqrtFn : ℚ → ℚ) (oScaler : Option Scaler)
    (m : Model) (df : List Row) (q : Param)
    (hdf : INPUT_STEPS ≤ df.length)
    (hm : ∀ w, ∃ ys, m w = Except.ok ys ∧ ys ≠ []) :
    ∃ payload, (predictParam sqrtFn oScaler (some m) df q).2 =
      ParamResult.ok payload := by
  simp only [predictParam]
  have hlen : ((oScaler.getD (fitScaler (df.map (colOf q)))).transform
      (df.map (colOf q))).length = df.length := by
    rw [Scaler.transform, List.length_map, List.length_map]
  rw [create_sequences_of_le (by decide) (by rw [hlen]; exact hdf)]
  dsimp only
  obtain ⟨ys, hys, hne⟩ := hm _
  rw [hys]
  dsimp only
  have hraw : df.map (colOf q) ≠ [] := by
    intro h0
    rw [h0] at hlen
    simp [Scaler.transform] at hlen
    rw [← hlen] at hdf
    simp [INPUT_STEPS] at hdf
  obtain ⟨c, hc⟩ := Option.isSome_iff_exists.mp (List.getLast?_isSome.mpr hraw)
  rw [hc]
  dsimp only
  have hfc : ((oScaler.getD (fitScaler (df.map (colOf q)))).inverseTransform
      ys).take FORECAST_STEPS ≠ [] := by
    rw [Ne, List.take_eq_nil_iff, not_or]
    refine ⟨by decide, ?_⟩
    simp [Scaler.inverseTransform, hne]
  obtain ⟨lastF, hlast⟩ := Option.isSome_iff_exists.mp (List.getLast?_isSome.mpr hfc)
  rw [hlast]
  dsimp only
  exact ⟨_, rfl⟩

/-- With a full input window available and a model whose invocation always
raises, the per-parameter loop body produces a caught-exception marker. -/
theorem predictParam_raises (sqrtFn : ℚ → ℚ) (oScaler : Option Scaler)
    (m : Model) (df : List Row) (q : Param)
    (hdf : INPUT_STEPS ≤ df.length)
    (hm : ∀ w, ∃ e, m w = Except.error e) :
    ∃ e, (predictParam sqrtFn oScaler (some m) df q).2 =
      ParamResult.exn (PARAM_NAMES q) e := by
  simp only [predictParam]
  have hlen : ((oScaler.getD (fitScaler (df.map (colOf q)))).transform
      (df.map (colOf q))).length = df.length := by
    rw [Scaler.transform, List.length_map, List.length_map]
  rw [create_sequences_of_le (by decide) (by rw [hlen]; exact hdf)]
  dsimp only
  obtain ⟨e, he⟩ := hm _
  rw [he]
  dsimp only
  exact ⟨e, rfl⟩

/-- The `/api/predict` envelope fails exactly when the data source is
unconfigured, the store holds no rows, or zero models are loaded. -/
theorem predict_failure_iff (env : PredictEnv) (sqrtFn : ℚ → ℚ) :
    (∃ e c, predict env sqrtFn = .failure e c) ↔
      (env.supabaseOk = false ∨ env.store = [] ∨
        countLoaded env.models = 0) := by
  unfold predict
  by_cases hs : env.supabaseOk = false
  · simp [hs]
  · rw [if_neg hs]
    by_cases hc : countLoaded env.models = 0
    · simp [hc, hs]
    · rw [if_neg hc]
      unfold fetch_sensor_data
      rw [if_neg hs]
      by_cases hst : env.store.take 500 = []
      · rw [if_pos hst]
        have hempty : env.store = [] := by
          rcases List.take_eq_nil_iff.mp hst with h0 | h0
          · omega
          · exact h0
        simp [hs, hc, hempty]
      · rw [if_neg hst]
        have hne : env.store ≠ [] := by
          intro h0
          rw [h0] at hst
          simp at hst
        simp [hs, hc, hne]

/-- C1: per-parameter fault isolation in `/api/predict`.  With the data
source reachable and enough rows for a window, if the model of parameter
`p` always raises while every other parameter's model returns a nonempty
forecast, the combined report is still a `success: true` / HTTP 200
envelope that records a caught-exception marker under `p`'s key and a full
`ForecastResult` payload under every other key; and (for every environment)
the whole call fails exactly when the data source is unconfigured, returns
no rows, or zero models are loaded. -/
theorem predict_fault_isolation (env : PredictEnv) (sqrtFn : ℚ → ℚ) (p : Param)
    (mp : Model)
    (hsup : env.supabaseOk = true)
    (hdf : INPUT_STEPS ≤ (env.store.take 500).length)
    (hp : env.models p = some mp)
    (hraise : ∀ w, ∃ e, mp w = Except.error e)
    (hok : ∀ q, q ≠ p → ∃ mq, env.models q = some mq ∧
      ∀ w, ∃ ys, mq w = Except.ok ys ∧ ys ≠ []) :
    (∃ res, predict env sqrtFn = .success (env.store.take 500).length res ∧
      (∃ e, res p = ParamResult.exn (PARAM_NAMES p) e) ∧
      (∀ q, q ≠ p → ∃ payload, res q = ParamResult.ok payload)) ∧
    (∀ env2 : PredictEnv, ∀ sqrtFn2 : ℚ → ℚ,
      (∃ e c, predict env2 sqrtFn2 = .failure e c) ↔
        (env2.supabaseOk = false ∨ env2.store = [] ∨
          countLoaded env2.models = 0)) := by
  refine ⟨?_, fun env2 sqrtFn2 => predict_failure_iff env2 sqrtFn2⟩
  have hcount : ¬ countLoaded env.models = 0 := by
    have hpos := countLoaded_pos env.models p (by rw [hp]; rfl)
    omega
  have hfetch : fetch_sensor_data env.supabaseOk env.store 500 =
      some (env.store.take 500) := by
    unfold fetch_sensor_data
    rw [if_neg (by rw [hsup]; simp)]
    rw [if_neg (by
      intro h0
      rw [h0] at hdf
      simp [INPUT_STEPS] at hdf)]
  unfold predict
  rw [if_neg (by rw [hsup]; simp), if_neg hcount, hfetch]
  refine ⟨_, rfl, ?_, ?_⟩
  · rw [predict_results, hp]
    exact predictParam_raises sqrtFn (env.scalers p) mp (env.store.take 500) p
      hdf hraise
  · intro q hq
    rw [predict_results]
    obtain ⟨mq, hmq, hmqok⟩ := hok q hq
    rw [hmq]
    exact predictParam_success sqrtFn (env.scalers q) mq (env.store.take 500) q
      hdf hmqok

/-- C1 witness: the isolation scenario evaluated on the 30-row constant
store with four loaded models of which the nitrogen one always raises. -/
theorem predict_fault_isolation_witness :
    ∃ res, predict envC1 sqrt0 = .success 30 res ∧
      (∃ e, res Param.nitrogen =
        ParamResult.exn (PARAM_NAMES Param.nitrogen) e) ∧
      (∀ q, q ≠ Param.nitrogen → ∃ payload, res q = ParamResult.ok payload) := by
  have hok : ∀ q, q ≠ Param.nitrogen → ∃ mq, envC1.models q = some mq ∧
      ∀ w, ∃ ys, mq w = Except.ok ys ∧ ys ≠ [] := by
    intro q hq
    cases q with
    | nitrogen => exact absurd rfl hq
    | phosphorus => exact ⟨modelStub123, rfl, fun w => ⟨_, rfl, by decide⟩⟩
    | moisture => exact ⟨modelStub123, rfl, fun w => ⟨_, rfl, by decide⟩⟩
    | pH => exact ⟨modelStub123, rfl, fun w => ⟨_, rfl, by decide⟩⟩
  exact (predict_fault_isolation envC1 sqrt0 Param.nitrogen modelBoom rfl
    (by decide) rfl (fun w => ⟨"boom", rfl⟩) hok).1

end Verdex
